import Mathlib

/-!
# MovieVault backend: verification of the auth and upsert-and-cache workflows

Shallow embedding of the MovieVault backend (TypeScript, Express + Prisma).
Pure data is embedded as Lean structures, the persisted relational store as
explicit lists of rows, and each service method as a state-passing function
returning `Except` for thrown errors.  External collaborators (the TMDb HTTP
client, bcryptjs, jsonwebtoken's verification of opaque token strings) are
parameters of an environment record, so a theorem quantifying over the
environment covers every behaviour of the collaborator.

String membership tests mirror JavaScript's `String.prototype.includes` and
`String.prototype.startsWith`; they are implemented by structural recursion on
the character list so that concrete instances reduce inside the kernel.
-/

namespace MovieVault

/-- `listPrefixEq p l` tests whether the character list `p` is an initial
segment of `l` (the core of JS `startsWith`). -/
def listPrefixEq : List Char → List Char → Bool
  | [], _ => true
  | _ :: _, [] => false
  | a :: as, b :: bs => a == b && listPrefixEq as bs

/-- Substring occurrence test on character lists: does `sub` occur
contiguously inside `l`? -/
def hasSubAux (sub : List Char) : List Char → Bool
  | [] => listPrefixEq sub []
  | c :: rest => listPrefixEq sub (c :: rest) || hasSubAux sub rest

/-- Model of JavaScript `s.includes(sub)`. -/
def strIncludes (s sub : String) : Bool := hasSubAux sub.data s.data

/-- Model of JavaScript `s.startsWith(pre)`. -/
def strStartsWith (s pre : String) : Bool := listPrefixEq pre.data s.data

/-- Model of JavaScript `s.substring(n)` for ASCII strings. -/
def strDropChars (s : String) (n : Nat) : String := ⟨s.data.drop n⟩

/-- A thrown JavaScript `Error`: its `message`, plus the optional `code`
property the services attach (`DUPLICATE_ENTRY`, `NOT_FOUND`). -/
structure JsError where
  message : String
  code : Option String := none
deriving DecidableEq, Repr

/-- A TMDb movie payload as returned by `TmdbService.getMovieDetails`
(src/backend/src/services/tmdbService.ts, interface `TmdbMovie`; only the
fields the cache write reads). -/
structure TmdbMovie where
  id : Nat
  title : String
  overview : String
  release_date : String
  poster_path : Option String
  vote_average : Rat
deriving DecidableEq, Repr

/-- A row of the `movies` cache table (repository interface `Movie`). -/
structure MovieRow where
  id : Nat
  title : String
  overview : String
  releaseDate : String
  posterPath : Option String
  voteAverage : Rat
deriving DecidableEq, Repr

/-- A row of the `watchlist` table (repository interface `WatchlistItem`;
the Prisma-generated cuid `id` column is omitted, no workflow reads it). -/
structure WatchlistRow where
  userId : String
  movieId : Nat
  addedAt : Nat
deriving DecidableEq, Repr

/-- A row of the `ratings` table (repository interface `Rating`; generated
`id` and timestamps omitted, no claim reads them). -/
structure RatingRow where
  userId : String
  movieId : Nat
  rating : Rat
  review : Option String
deriving DecidableEq, Repr

/-- The persisted relational store: the three tables the watchlist/rating
workflows touch. -/
structure DB where
  movies : List MovieRow := []
  watchlist : List WatchlistRow := []
  ratings : List RatingRow := []
deriving DecidableEq, Repr

/-- Environment for the movie workflows: the outcome of
`tmdbService.getMovieDetails` for each movie id, and whether
`movieRepository.create` throws (`some e`) or succeeds (`none`). -/
structure Env where
  tmdb : Nat → Except JsError TmdbMovie
  createFails : Option JsError := none

/-- `PrismaMovieRepository.findById`: look the movie up by its external id. -/
def MovieRepo.findById (db : DB) (movieId : Nat) : Option MovieRow :=
  db.movies.find? (fun m => m.id == movieId)

/-- `PrismaMovieRepository.create`: insert a cache row, or throw when the
environment says the insert fails (e.g. a unique-constraint race). -/
def MovieRepo.create (env : Env) (db : DB) (m : MovieRow) : Except JsError DB :=
  match env.createFails with
  | some e => Except.error e
  | none => Except.ok { db with movies := db.movies ++ [m] }

/-- The `CreateMovieData` built from a TMDb payload in
`addToWatchlist`/`upsertRating`/`cacheMovieIfNotExists`: note
`poster_path || undefined` turns an empty string into an absent value. -/
def movieDataOf (m : TmdbMovie) : MovieRow :=
  { id := m.id, title := m.title, overview := m.overview,
    releaseDate := m.release_date,
    posterPath := match m.poster_path with
      | some s => if s == "" then none else some s
      | none => none,
    voteAverage := m.vote_average }

/-- `PrismaWatchlistRepository.findByUserIdAndMovieId` (Prisma `findFirst`
with a `(userId, movieId)` filter). -/
def WatchlistRepo.findByUserIdAndMovieId (db : DB) (userId : String)
    (movieId : Nat) : Option WatchlistRow :=
  db.watchlist.find? (fun r => r.userId == userId && r.movieId == movieId)

/-- `PrismaWatchlistRepository.add`: insert a `(userId, movieId)` row with
the current time as `addedAt`. -/
def WatchlistRepo.add (db : DB) (userId : String) (movieId : Nat) (now : Nat) :
    DB × WatchlistRow :=
  let row : WatchlistRow := ⟨userId, movieId, now⟩
  ({ db with watchlist := db.watchlist ++ [row] }, row)

/-- `PrismaWatchlistRepository.remove` (Prisma `deleteMany` with a
`(userId, movieId)` filter — scoped to both keys). -/
def WatchlistRepo.remove (db : DB) (userId : String) (movieId : Nat) : DB :=
  { db with watchlist :=
      db.watchlist.filter (fun r => !(r.userId == userId && r.movieId == movieId)) }

/-- `PrismaRatingRepository.findByUserIdAndMovieId` (Prisma `findUnique` on
the `(userId, movieId)` unique key). -/
def RatingRepo.findByUserIdAndMovieId (db : DB) (userId : String)
    (movieId : Nat) : Option RatingRow :=
  db.ratings.find? (fun r => r.userId == userId && r.movieId == movieId)

/-- `data.review || null` in `PrismaRatingRepository.upsert`: an omitted
review or an empty string is stored as SQL `NULL`. -/
def normReview : Option String → Option String
  | none => none
  | some s => if s == "" then none else some s

/-- `PrismaRatingRepository.upsert`: atomic insert-or-update keyed on the
`(userId, movieId)` unique index (`ratings_userId_movieId_key`). -/
def RatingRepo.upsert (db : DB) (userId : String) (movieId : Nat)
    (rating : Rat) (review : Option String) : DB × RatingRow :=
  let row : RatingRow := ⟨userId, movieId, rating, normReview review⟩
  let updated :=
    db.ratings.map (fun r => if r.userId == userId && r.movieId == movieId then row else r)
  match RatingRepo.findByUserIdAndMovieId db userId movieId with
  | some _ => ({ db with ratings := updated }, row)
  | none => ({ db with ratings := db.ratings ++ [row] }, row)

/-- Body of the shared try-block in `addToWatchlist`/`upsertRating`
(verify the movie upstream, then cache it if absent); an error is the raw
thrown error, before each service's catch-block reshapes it. -/
def verifyAndCache (env : Env) (db : DB) (movieId : Nat) :
    Except JsError DB :=
  match env.tmdb movieId with
  | Except.error e => Except.error e
  | Except.ok m =>
    match MovieRepo.findById db movieId with
    | some _ => Except.ok db
    | none => MovieRepo.create env db (movieDataOf m)

/-- The catch-block of `WatchlistService.addToWatchlist`
(src/unnamed/part_008 lines 44–58): a "Movie not found" message is
re-thrown as a bare `Movie not found`, a `TMDb API…` error is re-thrown
as-is, and anything else — including a failed cache write — is wrapped as
`Failed to verify movie: …` and thrown. -/
def watchlistCatch (e : JsError) : JsError :=
  if strIncludes e.message "Movie not found" then ⟨"Movie not found", none⟩
  else if strStartsWith e.message "TMDb API" then e
  else ⟨"Failed to verify movie: " ++ e.message, none⟩

/-- The catch-block of `RatingService.upsertRating` (ratingService.ts lines
36–48): same first two branches, but the final branch re-throws the error
unchanged. -/
def ratingCatch (e : JsError) : JsError :=
  if strIncludes e.message "Movie not found" then ⟨"Movie not found", none⟩
  else if strStartsWith e.message "TMDb API" then e
  else e

/-- Result of `WatchlistService.addToWatchlist`: the store afterwards, the
returned row or thrown error, and whether `tmdbService.getMovieDetails`
was invoked during the call. -/
structure AddOutcome where
  db : DB
  result : Except JsError WatchlistRow
  tmdbCalled : Bool

/-- `WatchlistService.addToWatchlist` (src/unnamed/part_008 lines 18–63):
duplicate check first, then the verify-and-cache try-block, then the
insert. -/
def WatchlistService.addToWatchlist (env : Env) (db : DB) (userId : String)
    (movieId : Nat) (now : Nat) : AddOutcome :=
  match WatchlistRepo.findByUserIdAndMovieId db userId movieId with
  | some _ =>
      ⟨db, Except.error ⟨"Movie is already in watchlist", some "DUPLICATE_ENTRY"⟩, false⟩
  | none =>
    match verifyAndCache env db movieId with
    | Except.error e => ⟨db, Except.error (watchlistCatch e), true⟩
    | Except.ok db1 =>
        let p := WatchlistRepo.add db1 userId movieId now
        ⟨p.1, Except.ok p.2, true⟩

/-- `WatchlistService.removeFromWatchlist` (src/unnamed/part_008 lines
94–105): user-scoped existence check, then user-scoped delete. -/
def WatchlistService.removeFromWatchlist (db : DB) (userId : String)
    (movieId : Nat) : DB × Except JsError Unit :=
  match WatchlistRepo.findByUserIdAndMovieId db userId movieId with
  | none => (db, Except.error ⟨"Movie not found in watchlist", some "NOT_FOUND"⟩)
  | some _ => (WatchlistRepo.remove db userId movieId, Except.ok ())

/-- Result of `RatingService.upsertRating`: the store afterwards and the
returned `{ rating, isNew }` pair or thrown error. -/
structure UpsertOutcome where
  db : DB
  result : Except JsError (RatingRow × Bool)

/-- `RatingService.upsertRating` (ratingService.ts lines 18–63):
verify-and-cache, advisory existence pre-check for the `isNew` flag, then
the atomic repository upsert. -/
def RatingService.upsertRating (env : Env) (db : DB) (userId : String)
    (movieId : Nat) (rating : Rat) (review : Option String) : UpsertOutcome :=
  match verifyAndCache env db movieId with
  | Except.error e => ⟨db, Except.error (ratingCatch e)⟩
  | Except.ok db1 =>
      let isNew := (RatingRepo.findByUserIdAndMovieId db1 userId movieId).isNone
      let p := RatingRepo.upsert db1 userId movieId rating review
      ⟨p.1, Except.ok (p.2, isNew)⟩

/-- `MovieService.cacheMovieIfNotExists` (movieService.ts lines 75–97): the
whole check-and-insert is wrapped in a try whose catch only logs — a cache
failure leaves the store as it was and throws nothing. -/
def MovieService.cacheMovieIfNotExists (env : Env) (db : DB) (m : TmdbMovie) : DB :=
  match MovieRepo.findById db m.id with
  | some _ => db
  | none =>
    match MovieRepo.create env db (movieDataOf m) with
    | Except.ok db1 => db1
    | Except.error _ => db

/-! ## Authentication subsystem

`jwt.sign` with the default HS256 algorithm is deterministic: the emitted
token string is a function of the claim set (here `userId`, optionally
`email`), the automatic `iat`/`exp` claims (whole seconds), and the signing
secret.  Two issued tokens are byte-identical exactly when those inputs
coincide, so a token is embedded directly as that tuple. -/

/-- A signed JWT, identified by its payload, secret and second-granularity
timestamps (see module note on HS256 determinism). -/
structure SignedToken where
  userId : String
  email : Option String
  secret : String
  iat : Nat
  exp : Nat
deriving DecidableEq, Repr

/-- `process.env.JWT_SECRET || 'secret-key'`: the access-token secret
(one fixed value per deployment; the fallback literal stands for it). -/
def accessSecret : String := "secret-key"

/-- `process.env.JWT_REFRESH_SECRET || 'REFRESH-secret-key'`. -/
def refreshSecret : String := "REFRESH-secret-key"

/-- `expiresIn: '15m'` for access tokens, in seconds. -/
def accessExpirySeconds : Nat := 15 * 60

/-- `expiresIn: '7d'` for refresh tokens, in seconds. -/
def refreshExpirySeconds : Nat := 7 * 24 * 60 * 60

/-- `jwt.sign({userId, email}, JWT_SECRET, {expiresIn: '15m'})` at time
`now` (seconds since epoch). -/
def signAccessToken (userId email : String) (now : Nat) : SignedToken :=
  ⟨userId, some email, accessSecret, now, now + accessExpirySeconds⟩

/-- `jwt.sign({userId}, JWT_REFRESH_SECRET, {expiresIn: '7d'})` at time
`now`. -/
def signRefreshToken (userId : String) (now : Nat) : SignedToken :=
  ⟨userId, none, refreshSecret, now, now + refreshExpirySeconds⟩

/-- A row of the `users` table (repository interface `User` plus the
`password` bcrypt hash column; timestamps omitted, no claim reads them). -/
structure UserRow where
  id : String
  email : String
  username : String
  password : String
  firstName : String
  lastName : String
  bio : Option String := none
  avatarUrl : Option String := none
deriving DecidableEq, Repr

/-- The errors `jwt.verify` can throw.  In the jsonwebtoken library
`TokenExpiredError` is a subclass of `JsonWebTokenError` (and a malformed
or badly signed token throws a plain `JsonWebTokenError`). -/
inductive JwtVerifyError where
  | badSignature
  | expired
deriving DecidableEq, Repr

/-- `error instanceof jwt.JsonWebTokenError`: true for every verify error,
because `TokenExpiredError extends JsonWebTokenError` in the library. -/
def isJsonWebTokenError : JwtVerifyError → Bool := fun _ => true

/-- `error instanceof jwt.TokenExpiredError`: true only for the expiry
error. -/
def isTokenExpiredError : JwtVerifyError → Bool
  | JwtVerifyError.expired => true
  | JwtVerifyError.badSignature => false

/-- `jwt.verify(token, secret)` on an embedded token: signature fails when
the token was signed with a different secret; otherwise expiry fails when
the clock has reached `exp`. -/
def jwtVerify (token : SignedToken) (secret : String) (now : Nat) :
    Except JwtVerifyError SignedToken :=
  if token.secret == secret then
    if token.exp ≤ now then Except.error JwtVerifyError.expired
    else Except.ok token
  else Except.error JwtVerifyError.badSignature

/-- Environment for the auth workflows: the `users` table, the bcryptjs
comparison function (abstract — any behaviour of the library is allowed),
and `jwt.verify` against the access secret on opaque header token strings
(abstract for the middleware, which receives strings, not structured
tokens). -/
structure AuthEnv where
  users : List UserRow
  bcryptCompare : String → String → Bool := fun _ _ => false
  verifyAccessToken : String → Except JwtVerifyError (String × String) :=
    fun _ => Except.error JwtVerifyError.badSignature

/-- `PrismaUserRepository.findById` (Prisma `findUnique` on `id`). -/
def UserRepo.findById (env : AuthEnv) (id : String) : Option UserRow :=
  env.users.find? (fun u => u.id == id)

/-- `PrismaUserRepository.findByEmailWithPassword` (Prisma `findUnique` on
`email`, selecting the password hash too). -/
def UserRepo.findByEmailWithPassword (env : AuthEnv) (email : String) :
    Option UserRow :=
  env.users.find? (fun u => u.email == email)

/-- The generic failure `loginUser` throws for both a missing user and a
hash mismatch. -/
def invalidCredentials : JsError := ⟨"Invalid credentials", none⟩

/-- What a successful login returns: the user (password stripped at the
boundary) and the fresh token pair. -/
structure LoginResult where
  user : UserRow
  accessToken : SignedToken
  refreshToken : SignedToken
deriving DecidableEq, Repr

/-- `AuthService.loginUser` (userService.ts lines 273–305). -/
def AuthService.loginUser (env : AuthEnv) (email password : String)
    (now : Nat) : Except JsError LoginResult :=
  match UserRepo.findByEmailWithPassword env email with
  | none => Except.error invalidCredentials
  | some u =>
    if env.bcryptCompare password u.password then
      Except.ok ⟨u, signAccessToken u.id u.email now, signRefreshToken u.id now⟩
    else Except.error invalidCredentials

/-- The `{accessToken, refreshToken}` pair returned by `refreshToken`. -/
structure TokenPair where
  accessToken : SignedToken
  refreshToken : SignedToken
deriving DecidableEq, Repr

/-- `AuthService.refreshToken` (userService.ts lines 307–348): verify the
refresh token (the catch turns any `JsonWebTokenError`/`TokenExpiredError`
into `Invalid refresh token`), re-resolve the user (a missing user throws a
plain `User not found`, which the catch re-throws unchanged), then sign a
fresh pair. -/
def AuthService.refreshToken (env : AuthEnv) (token : SignedToken)
    (now : Nat) : Except JsError TokenPair :=
  match jwtVerify token refreshSecret now with
  | Except.error _ => Except.error ⟨"Invalid refresh token", none⟩
  | Except.ok decoded =>
    match UserRepo.findById env decoded.userId with
    | none => Except.error ⟨"User not found", none⟩
    | some u =>
        Except.ok ⟨signAccessToken u.id u.email now, signRefreshToken u.id now⟩

/-- An HTTP response at the controller boundary: status code plus the
`error` field of the JSON body (absent on success). -/
structure HttpResponse where
  status : Nat
  error : Option String
deriving DecidableEq, Repr

/-- `AuthController.login` error mapping (src/unnamed/part_002 lines
116–141): an error whose message includes `Invalid credentials` becomes a
401, anything else a 500. -/
def AuthController.login (env : AuthEnv) (email password : String)
    (now : Nat) : HttpResponse :=
  match AuthService.loginUser env email password now with
  | Except.ok _ => ⟨200, none⟩
  | Except.error e =>
    if strIncludes e.message "Invalid credentials" then ⟨401, some "Invalid credentials"⟩
    else ⟨500, some "Internal server error"⟩

/-- `AuthController.refresh` error mapping (src/unnamed/part_002 lines
143–168): only `Invalid refresh token` messages get a 401; any other
service error falls through to 500 `Internal server error`. -/
def AuthController.refresh (env : AuthEnv) (token : SignedToken)
    (now : Nat) : HttpResponse :=
  match AuthService.refreshToken env token now with
  | Except.ok _ => ⟨200, none⟩
  | Except.error e =>
    if strIncludes e.message "Invalid refresh token" then ⟨401, some "Invalid refresh token"⟩
    else ⟨500, some "Internal server error"⟩

/-- Outcome of the authentication gate: an early 401/500 response, or
success with the decoded identity attached to the request. -/
inductive GateOutcome where
  | response (status : Nat) (error : String)
  | success (userId email : String)
deriving DecidableEq, Repr

/-- `AuthMiddleware.authenticate` (src/unnamed/part_013 lines 15–80).  The
catch checks `instanceof jwt.JsonWebTokenError` BEFORE
`instanceof jwt.TokenExpiredError`, exactly as the source does. -/
def AuthMiddleware.authenticate (env : AuthEnv) (authHeader : Option String) :
    GateOutcome :=
  match authHeader with
  | none => GateOutcome.response 401 "Access token required"
  | some h =>
    if !strStartsWith h "Bearer " then
      GateOutcome.response 401 "Invalid authorization format. Use Bearer <token>"
    else
      let token := strDropChars h 7
      if token == "" then GateOutcome.response 401 "Access token required"
      else
        match env.verifyAccessToken token with
        | Except.error e =>
          if isJsonWebTokenError e then GateOutcome.response 401 "Invalid token"
          else if isTokenExpiredError e then GateOutcome.response 401 "Token expired"
          else GateOutcome.response 500 "Internal server error"
        | Except.ok (userId, email) =>
          match UserRepo.findById env userId with
          | none => GateOutcome.response 401 "User not found"
          | some _ => GateOutcome.success userId email

/-! ## Profile updates -/

/-- The input accepted by the profile-update workflow
(`updateProfileSchema`, userSchemas.ts lines 8–13): four optional display
fields; `bio`/`avatarUrl` distinguish "absent" (`none`) from an explicit
null (`some none`). -/
structure UpdateProfileData where
  firstName : Option String := none
  lastName : Option String := none
  bio : Option (Option String) := none
  avatarUrl : Option (Option String) := none

/-- The field-by-field conditional spread in
`PrismaUserRepository.updateProfile` (src/unnamed/part_012 lines 502–525):
each display field is written only when present in the input. -/
def applyProfileUpdate (d : UpdateProfileData) (u : UserRow) : UserRow :=
  { u with
    firstName := d.firstName.getD u.firstName,
    lastName := d.lastName.getD u.lastName,
    bio := d.bio.getD u.bio,
    avatarUrl := d.avatarUrl.getD u.avatarUrl }

/-- `PrismaUserRepository.updateProfile`: Prisma `update` on `where id`,
touching only the row with the matching id. -/
def PrismaUserRepository.updateProfile (users : List UserRow) (userId : String)
    (d : UpdateProfileData) : List UserRow :=
  users.map (fun u => if u.id == userId then applyProfileUpdate d u else u)

/-! ## Concrete fixtures for witnesses and counterexamples -/

/-- A TMDb payload fixture. -/
def fightClub : TmdbMovie :=
  ⟨550, "Fight Club", "An insomniac office worker", "1999-10-15", some "/fc.jpg", 84 / 10⟩

/-- The empty store. -/
def dbEmpty : DB := {}

/-- A cache-write failure, e.g. a unique-constraint race on `movies.id`. -/
def createFailErr : JsError := ⟨"db unique constraint violation", none⟩

/-- Environment in which the TMDb lookup for movie 550 succeeds but every
`movieRepository.create` throws. -/
def envCreateFail : Env :=
  { tmdb := fun m => if m == 550 then Except.ok fightClub
      else Except.error ⟨"Movie not found", none⟩,
    createFails := some createFailErr }

/-- Environment in which the TMDb lookup for movie 550 succeeds and cache
writes succeed. -/
def envTmdbOk : Env :=
  { tmdb := fun m => if m == 550 then Except.ok fightClub
      else Except.error ⟨"Movie not found", none⟩ }

/-- A user fixture. -/
def aliceUser : UserRow :=
  { id := "u1", email := "a@x.com", username := "alice",
    password := "bcrypt-hash-1", firstName := "Al", lastName := "Ice" }

/-- A second user fixture. -/
def bobUser : UserRow :=
  { id := "u2", email := "b@x.com", username := "bob",
    password := "bcrypt-hash-2", firstName := "Bo", lastName := "Bb" }

/-- Auth environment whose token verification reports expiry for one fixed
header token and a bad signature for any other. -/
def gateEnv : AuthEnv :=
  { users := [aliceUser],
    verifyAccessToken := fun t =>
      if t == "expired-token" then Except.error JwtVerifyError.expired
      else Except.error JwtVerifyError.badSignature }

/-- Auth environment in which every password comparison succeeds (the
stored hash matches). -/
def authEnvOk : AuthEnv := { users := [aliceUser], bcryptCompare := fun _ _ => true }

/-! ## Helper lemmas -/

/-- The first match of a predicate is the head of the filtered list. -/
theorem find?_eq_head?_filter {α : Type} (p : α → Bool) :
    ∀ l : List α, l.find? p = (l.filter p).head? := by
  intro l
  induction l with
  | nil => rfl
  | cons a as ih =>
    cases h : p a with
    | true =>
      rw [List.find?_cons_of_pos _ h, List.filter_cons, if_pos h]
      rfl
    | false =>
      rw [List.find?_cons_of_neg _ (by simp [h]), List.filter_cons,
        if_neg (by simp [h]), ih]

/-- A predicate with no match filters to the empty list. -/
theorem filter_eq_nil_of_find?_eq_none {α : Type} {p : α → Bool} {l : List α}
    (h : l.find? p = none) : l.filter p = [] := by
  rw [List.filter_eq_nil_iff]
  rw [List.find?_eq_none] at h
  exact h

/-- Mapping "replace every `(u, mId)` row by `y`" over the ratings table
and then filtering for the pair yields as many copies of `y` as there were
rows for the pair. -/
theorem ratings_filter_update (u : String) (mId : Nat) (y : RatingRow)
    (hy : (y.userId == u && y.movieId == mId) = true) :
    ∀ l : List RatingRow,
      ((l.map (fun x => if x.userId == u && x.movieId == mId then y else x)).filter
        (fun x => x.userId == u && x.movieId == mId)) =
      List.replicate (l.countP (fun x => x.userId == u && x.movieId == mId)) y := by
  intro l
  induction l with
  | nil => rfl
  | cons a as ih =>
    cases h : (a.userId == u && a.movieId == mId) with
    | true =>
      rw [List.map_cons, if_pos h, List.filter_cons, if_pos hy,
        List.countP_cons, h, ih]
      simp [List.replicate_succ]
    | false =>
      rw [List.map_cons, if_neg ?hneg, List.filter_cons, if_neg ?hneg2,
        List.countP_cons, h, ih]
      · simp
      case hneg => simp [h]
      case hneg2 => simp [h]

/-- The repository upsert always returns the row it wrote, with the review
normalized. -/
theorem upsert_snd (db : DB) (u : String) (mId : Nat) (r : Rat)
    (rev : Option String) :
    (RatingRepo.upsert db u mId r rev).2 = ⟨u, mId, r, normReview rev⟩ := by
  unfold RatingRepo.upsert
  cases RatingRepo.findByUserIdAndMovieId db u mId <;> rfl

/-- After an upsert on a store satisfying the `(userId, movieId)`
uniqueness constraint, the rows for the pair are exactly the written row. -/
theorem upsert_filter (db : DB) (u : String) (mId : Nat) (r : Rat)
    (rev : Option String)
    (hle : (db.ratings.filter
      (fun x => x.userId == u && x.movieId == mId)).length ≤ 1) :
    (RatingRepo.upsert db u mId r rev).1.ratings.filter
      (fun x => x.userId == u && x.movieId == mId) =
      [⟨u, mId, r, normReview rev⟩] := by
  have hp : (((⟨u, mId, r, normReview rev⟩ : RatingRow)).userId == u &&
      ((⟨u, mId, r, normReview rev⟩ : RatingRow)).movieId == mId) = true := by simp
  cases hf : RatingRepo.findByUserIdAndMovieId db u mId with
  | none =>
    have hfil : db.ratings.filter (fun x => x.userId == u && x.movieId == mId) = [] :=
      filter_eq_nil_of_find?_eq_none hf
    simp [RatingRepo.upsert, hf, List.filter_append, hfil, List.filter_cons, hp]
  | some found =>
    have hf' : List.find? (fun rr : RatingRow => rr.userId == u && rr.movieId == mId)
        db.ratings = some found := hf
    have hpos : 0 < db.ratings.countP (fun x => x.userId == u && x.movieId == mId) := by
      rw [List.countP_pos_iff]
      have hpa := List.find?_some
        (p := fun rr : RatingRow => rr.userId == u && rr.movieId == mId) hf'
      exact ⟨found, List.mem_of_find?_eq_some hf', hpa⟩
    have hlen := List.countP_eq_length_filter
      (fun x : RatingRow => x.userId == u && x.movieId == mId) db.ratings
    have hcount : db.ratings.countP (fun x => x.userId == u && x.movieId == mId) = 1 := by
      omega
    have hupd := ratings_filter_update u mId ⟨u, mId, r, normReview rev⟩ hp db.ratings
    simp only [RatingRepo.upsert, hf]
    rw [hupd, hcount]
    rfl

/-- When the TMDb lookup succeeds and the cache write does not fail, the
shared try-block succeeds and leaves the watchlist and ratings tables
untouched (it at most inserts a movie cache row). -/
theorem verifyAndCache_ok (env : Env) (db : DB) (mId : Nat) (m : TmdbMovie)
    (htm : env.tmdb mId = Except.ok m) (hcf : env.createFails = none) :
    ∃ db1, verifyAndCache env db mId = Except.ok db1 ∧
      db1.watchlist = db.watchlist ∧ db1.ratings = db.ratings := by
  cases h : MovieRepo.findById db mId with
  | some mv =>
      refine ⟨db, ?_, rfl, rfl⟩
      simp [verifyAndCache, htm, h]
  | none =>
      refine ⟨{ db with movies := db.movies ++ [movieDataOf m] }, ?_, rfl, rfl⟩
      simp [verifyAndCache, htm, h, MovieRepo.create, hcf]

/-- When the TMDb lookup succeeds and the cache write does not fail,
`upsertRating` runs the advisory existence check and the repository upsert
against a store whose ratings table is the input one. -/
theorem upsertRating_ok (env : Env) (db : DB) (u : String) (mId : Nat)
    (r : Rat) (rev : Option String) (m : TmdbMovie)
    (htm : env.tmdb mId = Except.ok m) (hcf : env.createFails = none) :
    ∃ db1, verifyAndCache env db mId = Except.ok db1 ∧ db1.ratings = db.ratings ∧
      RatingService.upsertRating env db u mId r rev =
        ⟨(RatingRepo.upsert db1 u mId r rev).1,
         Except.ok ((RatingRepo.upsert db1 u mId r rev).2,
           (RatingRepo.findByUserIdAndMovieId db1 u mId).isNone)⟩ := by
  obtain ⟨db1, hvc, hw, hr⟩ := verifyAndCache_ok env db mId m htm hcf
  refine ⟨db1, hvc, hr, ?_⟩
  simp [RatingService.upsertRating, hvc]

/-- Number of watchlist rows for one `(userId, movieId)` pair. -/
def countWatchlistPair (db : DB) (userId : String) (movieId : Nat) : Nat :=
  (db.watchlist.filter (fun r => r.userId == userId && r.movieId == movieId)).length

/-! ## Claim theorems -/

/-- C2: a bearer token with the correct scheme whose verification fails
with expiry is answered with the message `Invalid token` — the same message
as a bad signature — because the middleware checks
`instanceof jwt.JsonWebTokenError` before `instanceof jwt.TokenExpiredError`
and `TokenExpiredError` is a subclass of `JsonWebTokenError`; the
`Token expired` branch is unreachable even though it exists in the source
(the claimed distinct "token expired" message is never produced). -/
theorem c2_expired_token_masked :
    AuthMiddleware.authenticate gateEnv (some "Bearer expired-token") =
      GateOutcome.response 401 "Invalid token" ∧
    AuthMiddleware.authenticate gateEnv (some "Bearer tampered-token") =
      GateOutcome.response 401 "Invalid token" ∧
    isTokenExpiredError JwtVerifyError.expired = true :=
  ⟨rfl, rfl, rfl⟩

/-- C6: a removal for a `(userId, movieId)` pair with no matching row for
that user — whether or not another user has a row for the same movie —
returns the one fixed `NOT_FOUND` failure and leaves the store untouched,
so no row of any user is deleted and the behaviour is identical to the
entry not existing. -/
theorem c6_remove_scoped_notFound (db : DB) (u : String) (m : Nat)
    (h : WatchlistRepo.findByUserIdAndMovieId db u m = none) :
    WatchlistService.removeFromWatchlist db u m =
      (db, Except.error ⟨"Movie not found in watchlist", some "NOT_FOUND"⟩) := by
  unfold WatchlistService.removeFromWatchlist
  rw [h]

/-- Witness for C6: user `u1` attempts to remove movie 550 while only user
`u2` has a watchlist row for movie 550; the call fails with `NOT_FOUND`
and the store (including `u2`'s row) is unchanged. -/
theorem c6_remove_scoped_notFound_witness :
    WatchlistService.removeFromWatchlist ⟨[], [⟨"u2", 550, 7⟩], []⟩ "u1" 550 =
      (⟨[], [⟨"u2", 550, 7⟩], []⟩,
       Except.error ⟨"Movie not found in watchlist", some "NOT_FOUND"⟩) :=
  c6_remove_scoped_notFound ⟨[], [⟨"u2", 550, 7⟩], []⟩ "u1" 550 rfl

/-- C7: a login attempt for an email with no user and a login attempt for
an existing user with a non-matching password throw the same error value
(`Invalid credentials`, no code), and the controller maps both to the same
`401 Invalid credentials` response — no observable difference in the
returned error. -/
theorem c7_login_uniform_failure (env : AuthEnv) (e1 p1 e2 p2 : String)
    (t1 t2 : Nat) (u : UserRow)
    (h1 : UserRepo.findByEmailWithPassword env e1 = none)
    (h2 : UserRepo.findByEmailWithPassword env e2 = some u)
    (h3 : env.bcryptCompare p2 u.password = false) :
    AuthService.loginUser env e1 p1 t1 = Except.error invalidCredentials ∧
    AuthService.loginUser env e2 p2 t2 = Except.error invalidCredentials ∧
    AuthController.login env e1 p1 t1 = AuthController.login env e2 p2 t2 ∧
    AuthController.login env e1 p1 t1 = ⟨401, some "Invalid credentials"⟩ := by
  have ha : AuthService.loginUser env e1 p1 t1 = Except.error invalidCredentials := by
    simp [AuthService.loginUser, h1]
  have hb : AuthService.loginUser env e2 p2 t2 = Except.error invalidCredentials := by
    simp [AuthService.loginUser, h2, h3]
  have hinc : strIncludes invalidCredentials.message "Invalid credentials" = true := by
    decide
  have hc : AuthController.login env e1 p1 t1 = ⟨401, some "Invalid credentials"⟩ := by
    simp [AuthController.login, ha, hinc]
  have hd : AuthController.login env e2 p2 t2 = ⟨401, some "Invalid credentials"⟩ := by
    simp [AuthController.login, hb, hinc]
  exact ⟨ha, hb, hc.trans hd.symm, hc⟩

/-- Witness for C7: in an environment holding only `aliceUser` (and a
bcrypt comparison that rejects everything), logging in as the unknown
`nobody@x.com` and logging in as `a@x.com` with a wrong password produce
the same error and the same response. -/
theorem c7_login_uniform_failure_witness :
    AuthService.loginUser { users := [aliceUser] } "nobody@x.com" "pw1" 10 =
      Except.error invalidCredentials ∧
    AuthService.loginUser { users := [aliceUser] } "a@x.com" "wrong" 11 =
      Except.error invalidCredentials ∧
    AuthController.login { users := [aliceUser] } "nobody@x.com" "pw1" 10 =
      AuthController.login { users := [aliceUser] } "a@x.com" "wrong" 11 ∧
    AuthController.login { users := [aliceUser] } "nobody@x.com" "pw1" 10 =
      ⟨401, some "Invalid credentials"⟩ :=
  c7_login_uniform_failure { users := [aliceUser] } "nobody@x.com" "pw1" "a@x.com"
    "wrong" 10 11 aliceUser rfl rfl rfl

/-- C9: a refresh token that verifies (right secret, not yet expired) but
whose embedded user id resolves to no user makes the service throw the
plain `User not found` error, for which `AuthController.refresh` has no
handling branch — the boundary answers `500 Internal server error`, not a
401. -/
theorem c9_refresh_ghost_user_500 (env : AuthEnv) (tok : SignedToken) (now : Nat)
    (hsec : tok.secret = refreshSecret) (hexp : now < tok.exp)
    (huser : UserRepo.findById env tok.userId = none) :
    AuthService.refreshToken env tok now = Except.error ⟨"User not found", none⟩ ∧
    AuthController.refresh env tok now = ⟨500, some "Internal server error"⟩ := by
  have hnle : ¬ (tok.exp ≤ now) := Nat.not_le.mpr hexp
  have hv : jwtVerify tok refreshSecret now = Except.ok tok := by
    simp [jwtVerify, hsec, hnle]
  have hs : AuthService.refreshToken env tok now =
      Except.error ⟨"User not found", none⟩ := by
    simp [AuthService.refreshToken, hv, huser]
  have hni : strIncludes "User not found" "Invalid refresh token" = false := by decide
  refine ⟨hs, ?_⟩
  simp [AuthController.refresh, hs, hni]

/-- Witness for C9: a refresh token for the vanished user `ghost`, signed
with the refresh secret and redeemed well before expiry, in a store with no
users. -/
theorem c9_refresh_ghost_user_500_witness :
    AuthService.refreshToken { users := [] } (signRefreshToken "ghost" 0) 3 =
      Except.error ⟨"User not found", none⟩ ∧
    AuthController.refresh { users := [] } (signRefreshToken "ghost" 0) 3 =
      ⟨500, some "Internal server error"⟩ :=
  c9_refresh_ghost_user_500 { users := [] } (signRefreshToken "ghost" 0) 3
    rfl (by decide) rfl

/-- C3 counterexample: `jwt.sign` is deterministic, so tokens are
identified by payload, secret and second-granularity timestamps.  A login
at second 100 issues access token `signAccessToken "u1" "a@x.com" 100` and
refresh token `signRefreshToken "u1" 100`; redeeming that refresh token
within the same second succeeds and returns an access token identical to
the previously issued one and a refresh token identical to the submitted
one — rotation fails for this successful refresh call. -/
theorem c3_counterexample :
    AuthService.loginUser authEnvOk "a@x.com" "pw" 100 =
      Except.ok ⟨aliceUser, signAccessToken "u1" "a@x.com" 100,
        signRefreshToken "u1" 100⟩ ∧
    AuthService.refreshToken authEnvOk (signRefreshToken "u1" 100) 100 =
      Except.ok ⟨signAccessToken "u1" "a@x.com" 100, signRefreshToken "u1" 100⟩ :=
  ⟨rfl, rfl⟩

/-- C3 (amended): rotation holds except for same-second reissue — for every
successful `refreshToken` call at second `now`, the returned refresh token
differs from the submitted one whenever the submitted token was issued at a
different second, and the returned access token differs from any access
token issued at a different second. -/
theorem c3_amended_rotation (env : AuthEnv) (old : SignedToken) (now : Nat)
    (pair : TokenPair)
    (hok : AuthService.refreshToken env old now = Except.ok pair)
    (uid email : String) (t : Nat) :
    (old.iat ≠ now → pair.refreshToken ≠ old) ∧
    (t ≠ now → pair.accessToken ≠ signAccessToken uid email t) := by
  unfold AuthService.refreshToken at hok
  obtain ⟨u, hpair⟩ : ∃ u : UserRow,
      pair = ⟨signAccessToken u.id u.email now, signRefreshToken u.id now⟩ := by
    split at hok
    · exact absurd hok (by simp)
    · split at hok
      · exact absurd hok (by simp)
      · exact ⟨_, (Except.ok.inj hok).symm⟩
  refine ⟨fun hne heq => absurd ?_ hne, fun hne heq => absurd ?_ hne⟩
  · have h1 : old.iat = (signRefreshToken u.id now).iat := by
      rw [← heq, hpair]
    simpa [signRefreshToken] using h1
  · have h2 : (signAccessToken uid email t).iat =
        (signAccessToken u.id u.email now).iat := by
      rw [← heq, hpair]
    simpa [signAccessToken] using h2

/-- Witness for C3 (amended): redeeming a refresh token issued at second 50
during second 60 returns a refresh token different from the submitted one
and an access token different from one issued at second 100. -/
theorem c3_amended_rotation_witness :
    TokenPair.refreshToken
        ⟨signAccessToken "u1" "a@x.com" 60, signRefreshToken "u1" 60⟩ ≠
      signRefreshToken "u1" 50 ∧
    TokenPair.accessToken
        ⟨signAccessToken "u1" "a@x.com" 60, signRefreshToken "u1" 60⟩ ≠
      signAccessToken "u1" "a@x.com" 100 :=
  ⟨(c3_amended_rotation authEnvOk (signRefreshToken "u1" 50) 60
      ⟨signAccessToken "u1" "a@x.com" 60, signRefreshToken "u1" 60⟩ rfl
      "u1" "a@x.com" 100).1 (by decide),
   (c3_amended_rotation authEnvOk (signRefreshToken "u1" 50) 60
      ⟨signAccessToken "u1" "a@x.com" 60, signRefreshToken "u1" 60⟩ rfl
      "u1" "a@x.com" 100).2 (by decide)⟩

/-- C1 counterexample: with the TMDb lookup for movie 550 succeeding but
the local cache write (`movieRepository.create`) failing, both
`addToWatchlist` and `upsertRating` fail — the cache-write error is
surfaced to the caller (wrapped as `Failed to verify movie: …` by the
watchlist catch, re-thrown unchanged by the rating catch), contradicting
the claim that the operation still completes successfully. -/
theorem c1_counterexample :
    envCreateFail.tmdb 550 = Except.ok fightClub ∧
    (WatchlistService.addToWatchlist envCreateFail dbEmpty "u1" 550 0).result =
      Except.error ⟨"Failed to verify movie: db unique constraint violation", none⟩ ∧
    (RatingService.upsertRating envCreateFail dbEmpty "u1" 550 8 none).result =
      Except.error createFailErr :=
  ⟨rfl, rfl, rfl⟩

/-- C1 (amended): a failing cache write during `addToWatchlist` or
`upsertRating` is surfaced to the caller — wrapped as
`Failed to verify movie: …` by the watchlist service, re-thrown unchanged
by the rating service — while only `MovieService.cacheMovieIfNotExists`
(used by the search/similar flows) swallows cache-write failures and leaves
the store unchanged. -/
theorem c1_amended_cache_failure_surfaced (env : Env) (db : DB) (u : String)
    (mId now : Nat) (r : Rat) (rev : Option String) (m : TmdbMovie) (e : JsError)
    (htm : env.tmdb mId = Except.ok m)
    (hcf : env.createFails = some e)
    (hmid : m.id = mId)
    (hnc : MovieRepo.findById db mId = none)
    (hnw : WatchlistRepo.findByUserIdAndMovieId db u mId = none)
    (hni : strIncludes e.message "Movie not found" = false)
    (hns : strStartsWith e.message "TMDb API" = false) :
    (WatchlistService.addToWatchlist env db u mId now).result =
      Except.error ⟨"Failed to verify movie: " ++ e.message, none⟩ ∧
    (RatingService.upsertRating env db u mId r rev).result = Except.error e ∧
    MovieService.cacheMovieIfNotExists env db m = db := by
  have hvc : verifyAndCache env db mId = Except.error e := by
    simp [verifyAndCache, htm, hnc, MovieRepo.create, hcf]
  refine ⟨?_, ?_, ?_⟩
  · simp [WatchlistService.addToWatchlist, hnw, hvc, watchlistCatch, hni, hns]
  · simp [RatingService.upsertRating, hvc, ratingCatch, hni]
  · rw [MovieService.cacheMovieIfNotExists, hmid, hnc]
    simp [MovieRepo.create, hcf]

/-- Witness for C1 (amended): the concrete failing-cache environment of
the counterexample, at a fresh user and movie 550. -/
theorem c1_amended_cache_failure_surfaced_witness :
    (WatchlistService.addToWatchlist envCreateFail dbEmpty "u2" 550 3).result =
      Except.error ⟨"Failed to verify movie: " ++ createFailErr.message, none⟩ ∧
    (RatingService.upsertRating envCreateFail dbEmpty "u2" 550 9 (some "ok")).result =
      Except.error createFailErr ∧
    MovieService.cacheMovieIfNotExists envCreateFail dbEmpty fightClub = dbEmpty :=
  c1_amended_cache_failure_surfaced envCreateFail dbEmpty "u2" 550 3 9 (some "ok")
    fightClub createFailErr rfl rfl rfl rfl rfl (by decide) (by decide)

/-- C5: a duplicate `addToWatchlist` fails with the `DUPLICATE_ENTRY`
conflict without calling the external metadata client and without touching
the store (last three conjuncts, for any store `db2` already holding a row
for the pair); and after a first successful add on a store with no row for
the pair, the second attempt fails with the conflict, never calls the
client, and the watchlist holds exactly one row for the pair. -/
theorem c5_add_duplicate (env : Env) (db db2 : DB) (u : String)
    (mId t1 t2 : Nat) (m : TmdbMovie) (r : WatchlistRow)
    (htm : env.tmdb mId = Except.ok m) (hcf : env.createFails = none)
    (hnw : WatchlistRepo.findByUserIdAndMovieId db u mId = none)
    (hdup : WatchlistRepo.findByUserIdAndMovieId db2 u mId = some r) :
    (WatchlistService.addToWatchlist env db u mId t1).result =
      Except.ok ⟨u, mId, t1⟩ ∧
    (WatchlistService.addToWatchlist env
        (WatchlistService.addToWatchlist env db u mId t1).db u mId t2).result =
      Except.error ⟨"Movie is already in watchlist", some "DUPLICATE_ENTRY"⟩ ∧
    (WatchlistService.addToWatchlist env
        (WatchlistService.addToWatchlist env db u mId t1).db u mId t2).tmdbCalled =
      false ∧
    countWatchlistPair (WatchlistService.addToWatchlist env
        (WatchlistService.addToWatchlist env db u mId t1).db u mId t2).db u mId = 1 ∧
    (WatchlistService.addToWatchlist env db2 u mId t2).tmdbCalled = false ∧
    (WatchlistService.addToWatchlist env db2 u mId t2).db = db2 ∧
    (WatchlistService.addToWatchlist env db2 u mId t2).result =
      Except.error ⟨"Movie is already in watchlist", some "DUPLICATE_ENTRY"⟩ := by
  obtain ⟨db1, hvc, hw, hr⟩ := verifyAndCache_ok env db mId m htm hcf
  have h1 : WatchlistService.addToWatchlist env db u mId t1 =
      ⟨{ db1 with watchlist := db1.watchlist ++ [⟨u, mId, t1⟩] },
       Except.ok ⟨u, mId, t1⟩, true⟩ := by
    simp [WatchlistService.addToWatchlist, hnw, hvc, WatchlistRepo.add]
  have hprow : ((⟨u, mId, t1⟩ : WatchlistRow).userId == u &&
      (⟨u, mId, t1⟩ : WatchlistRow).movieId == mId) = true := by simp
  have hfind2 : WatchlistRepo.findByUserIdAndMovieId
      { db1 with watchlist := db1.watchlist ++ [⟨u, mId, t1⟩] } u mId =
      some ⟨u, mId, t1⟩ := by
    unfold WatchlistRepo.findByUserIdAndMovieId at hnw ⊢
    rw [← hw] at hnw
    simp [List.find?_append, hnw, List.find?_cons_of_pos _ hprow]
  have hfil1 : db1.watchlist.filter
      (fun x => x.userId == u && x.movieId == mId) = [] := by
    apply filter_eq_nil_of_find?_eq_none
    unfold WatchlistRepo.findByUserIdAndMovieId at hnw
    rw [← hw] at hnw
    exact hnw
  refine ⟨by rw [h1], ?_, ?_, ?_, ?_, ?_, ?_⟩
  · rw [h1]
    simp [WatchlistService.addToWatchlist, hfind2]
  · rw [h1]
    simp [WatchlistService.addToWatchlist, hfind2]
  · rw [h1]
    simp only [WatchlistService.addToWatchlist, hfind2]
    simp [countWatchlistPair, List.filter_append, hfil1, hprow]
  · simp [WatchlistService.addToWatchlist, hdup]
  · simp [WatchlistService.addToWatchlist, hdup]
  · simp [WatchlistService.addToWatchlist, hdup]

/-- Witness for C5: on the empty store, adding movie 550 for `u1` succeeds,
the second attempt conflicts without a TMDb call, and exactly one row for
the pair remains; likewise a store already holding the pair rejects the add
untouched. -/
theorem c5_add_duplicate_witness :
    (WatchlistService.addToWatchlist envTmdbOk dbEmpty "u1" 550 1).result =
      Except.ok ⟨"u1", 550, 1⟩ ∧
    (WatchlistService.addToWatchlist envTmdbOk
        (WatchlistService.addToWatchlist envTmdbOk dbEmpty "u1" 550 1).db
        "u1" 550 2).result =
      Except.error ⟨"Movie is already in watchlist", some "DUPLICATE_ENTRY"⟩ ∧
    (WatchlistService.addToWatchlist envTmdbOk
        (WatchlistService.addToWatchlist envTmdbOk dbEmpty "u1" 550 1).db
        "u1" 550 2).tmdbCalled = false ∧
    countWatchlistPair (WatchlistService.addToWatchlist envTmdbOk
        (WatchlistService.addToWatchlist envTmdbOk dbEmpty "u1" 550 1).db
        "u1" 550 2).db "u1" 550 = 1 ∧
    (WatchlistService.addToWatchlist envTmdbOk ⟨[], [⟨"u1", 550, 9⟩], []⟩
        "u1" 550 2).tmdbCalled = false ∧
    (WatchlistService.addToWatchlist envTmdbOk ⟨[], [⟨"u1", 550, 9⟩], []⟩
        "u1" 550 2).db = ⟨[], [⟨"u1", 550, 9⟩], []⟩ ∧
    (WatchlistService.addToWatchlist envTmdbOk ⟨[], [⟨"u1", 550, 9⟩], []⟩
        "u1" 550 2).result =
      Except.error ⟨"Movie is already in watchlist", some "DUPLICATE_ENTRY"⟩ :=
  c5_add_duplicate envTmdbOk dbEmpty ⟨[], [⟨"u1", 550, 9⟩], []⟩ "u1" 550 1 2
    fightClub ⟨"u1", 550, 9⟩ rfl rfl rfl rfl

/-- C4: two `upsertRating` calls for the same `(userId, movieId)` pair — on
any store satisfying the pair's uniqueness constraint — leave exactly one
rating row for the pair, whose rating and review equal the second call's
values, and the second call reports `isNew = false`. -/
theorem c4_upsert_twice (env : Env) (db : DB) (u : String) (mId : Nat)
    (r1 r2 : Rat) (rev1 rev2 : Option String) (m : TmdbMovie)
    (htm : env.tmdb mId = Except.ok m) (hcf : env.createFails = none)
    (hle : (db.ratings.filter
      (fun x => x.userId == u && x.movieId == mId)).length ≤ 1) :
    (RatingService.upsertRating env
        (RatingService.upsertRating env db u mId r1 rev1).db u mId r2 rev2).result =
      Except.ok (⟨u, mId, r2, normReview rev2⟩, false) ∧
    (RatingService.upsertRating env
        (RatingService.upsertRating env db u mId r1 rev1).db u mId r2 rev2).db.ratings.filter
      (fun x => x.userId == u && x.movieId == mId) =
      [⟨u, mId, r2, normReview rev2⟩] := by
  obtain ⟨db1, hvc1, hr1, heq1⟩ := upsertRating_ok env db u mId r1 rev1 m htm hcf
  have hle1 : (db1.ratings.filter
      (fun x => x.userId == u && x.movieId == mId)).length ≤ 1 := by
    rw [hr1]; exact hle
  have hfil1 : (RatingRepo.upsert db1 u mId r1 rev1).1.ratings.filter
      (fun x => x.userId == u && x.movieId == mId) =
      [⟨u, mId, r1, normReview rev1⟩] := upsert_filter db1 u mId r1 rev1 hle1
  obtain ⟨db1', hvc2, hr2, heq2⟩ :=
    upsertRating_ok env (RatingRepo.upsert db1 u mId r1 rev1).1 u mId r2 rev2 m htm hcf
  have hfil1' : db1'.ratings.filter
      (fun x => x.userId == u && x.movieId == mId) =
      [⟨u, mId, r1, normReview rev1⟩] := by
    rw [hr2]; exact hfil1
  have hfind' : RatingRepo.findByUserIdAndMovieId db1' u mId =
      some ⟨u, mId, r1, normReview rev1⟩ := by
    unfold RatingRepo.findByUserIdAndMovieId
    rw [find?_eq_head?_filter, hfil1']
    rfl
  have hle2 : (db1'.ratings.filter
      (fun x => x.userId == u && x.movieId == mId)).length ≤ 1 := by
    rw [hfil1']; simp
  have hfil2 := upsert_filter db1' u mId r2 rev2 hle2
  have hdbeq : (RatingService.upsertRating env db u mId r1 rev1).db =
      (RatingRepo.upsert db1 u mId r1 rev1).1 := by rw [heq1]
  constructor
  · rw [hdbeq, heq2]
    simp [upsert_snd, hfind']
  · rw [hdbeq, heq2]
    exact hfil2

/-- Witness for C4: movie 550 rated twice by `u1` on the empty store —
first 7 with review `meh`, then 9 with review `great`; the second call
reports an update and the table holds the single second-valued row. -/
theorem c4_upsert_twice_witness :
    (RatingService.upsertRating envTmdbOk
        (RatingService.upsertRating envTmdbOk dbEmpty "u1" 550 7 (some "meh")).db
        "u1" 550 9 (some "great")).result =
      Except.ok (⟨"u1", 550, 9, normReview (some "great")⟩, false) ∧
    (RatingService.upsertRating envTmdbOk
        (RatingService.upsertRating envTmdbOk dbEmpty "u1" 550 7 (some "meh")).db
        "u1" 550 9 (some "great")).db.ratings.filter
      (fun x => x.userId == "u1" && x.movieId == 550) =
      [⟨"u1", 550, 9, normReview (some "great")⟩] :=
  c4_upsert_twice envTmdbOk dbEmpty "u1" 550 7 9 (some "meh") (some "great")
    fightClub rfl rfl (by decide)

/-- C10: when a rating row for the pair exists with a non-null review, a
later `upsertRating` that omits the review or passes the empty string
overwrites the stored review to null (the previous text is erased), because
the repository writes `data.review || null`. -/
theorem c10_review_erased (env : Env) (db : DB) (u : String) (mId : Nat)
    (r0 r2 : Rat) (s : String) (m : TmdbMovie)
    (htm : env.tmdb mId = Except.ok m) (hcf : env.createFails = none)
    (hrow : db.ratings.filter (fun x => x.userId == u && x.movieId == mId) =
      [⟨u, mId, r0, some s⟩]) :
    (RatingService.upsertRating env db u mId r2 none).db.ratings.filter
      (fun x => x.userId == u && x.movieId == mId) = [⟨u, mId, r2, none⟩] ∧
    (RatingService.upsertRating env db u mId r2 (some "")).db.ratings.filter
      (fun x => x.userId == u && x.movieId == mId) = [⟨u, mId, r2, none⟩] := by
  constructor
  · obtain ⟨db1, hvc, hr1, heq⟩ := upsertRating_ok env db u mId r2 none m htm hcf
    have hle1 : (db1.ratings.filter
        (fun x => x.userId == u && x.movieId == mId)).length ≤ 1 := by
      rw [hr1, hrow]; simp
    have h := upsert_filter db1 u mId r2 none hle1
    rw [heq]
    simpa [normReview] using h
  · obtain ⟨db1, hvc, hr1, heq⟩ := upsertRating_ok env db u mId r2 (some "") m htm hcf
    have hle1 : (db1.ratings.filter
        (fun x => x.userId == u && x.movieId == mId)).length ≤ 1 := by
      rw [hr1, hrow]; simp
    have h := upsert_filter db1 u mId r2 (some "") hle1
    rw [heq]
    simpa [normReview] using h

/-- Witness for C10: `u1` has rated movie 550 with review `loved it`; a new
upsert with rating 9 and no review (or an empty-string review) leaves the
single row for the pair with a null review. -/
theorem c10_review_erased_witness :
    (RatingService.upsertRating envTmdbOk ⟨[], [], [⟨"u1", 550, 7, some "loved it"⟩]⟩
        "u1" 550 9 none).db.ratings.filter
      (fun x => x.userId == "u1" && x.movieId == 550) = [⟨"u1", 550, 9, none⟩] ∧
    (RatingService.upsertRating envTmdbOk ⟨[], [], [⟨"u1", 550, 7, some "loved it"⟩]⟩
        "u1" 550 9 (some "")).db.ratings.filter
      (fun x => x.userId == "u1" && x.movieId == 550) = [⟨"u1", 550, 9, none⟩] :=
  c10_review_erased envTmdbOk ⟨[], [], [⟨"u1", 550, 7, some "loved it"⟩]⟩
    "u1" 550 7 9 "loved it" fightClub rfl rfl rfl

/-- C8: a profile update touches at most the display fields of the
targeted user — position by position, `id`, `email`, `username` and the
hashed `password` of every user are unchanged, and any user with a
different id is entirely unchanged. -/
theorem c8_updateProfile_frame (users : List UserRow) (userId : String)
    (d : UpdateProfileData) (i : Nat) (u : UserRow) :
    ((PrismaUserRepository.updateProfile users userId d)[i]?).map
        (fun x => (x.id, x.email, x.username, x.password)) =
      (users[i]?).map (fun x => (x.id, x.email, x.username, x.password)) ∧
    (users[i]? = some u → u.id ≠ userId →
      (PrismaUserRepository.updateProfile users userId d)[i]? = some u) := by
  constructor
  · rw [PrismaUserRepository.updateProfile, List.getElem?_map]
    cases h : users[i]? with
    | none => rfl
    | some x =>
      by_cases hx : x.id = userId
      · simp [hx, applyProfileUpdate]
      · simp [hx]
  · intro h hne
    rw [PrismaUserRepository.updateProfile, List.getElem?_map, h]
    simp [hne]

/-- Witness for C8: updating `u1`'s bio in a two-user store leaves `u2`'s
row untouched and preserves everyone's id, email, username and password. -/
theorem c8_updateProfile_frame_witness :
    ((PrismaUserRepository.updateProfile [aliceUser, bobUser] "u1"
        { bio := some (some "hello") })[1]?).map
        (fun x => (x.id, x.email, x.username, x.password)) =
      (([aliceUser, bobUser] : List UserRow)[1]?).map
        (fun x => (x.id, x.email, x.username, x.password)) ∧
    (PrismaUserRepository.updateProfile [aliceUser, bobUser] "u1"
        { bio := some (some "hello") })[1]? = some bobUser :=
  ⟨(c8_updateProfile_frame [aliceUser, bobUser] "u1"
      { bio := some (some "hello") } 1 bobUser).1,
   (c8_updateProfile_frame [aliceUser, bobUser] "u1"
      { bio := some (some "hello") } 1 bobUser).2 rfl (by decide)⟩

end MovieVault
